import Mathlib

/-
Verification of the Energy Proxy Library of the winter-storm-uri demo
repository (src/energy.py, with the climatology cells of src/demand.py).

The library is a set of pure, elementwise numerical formulas over labeled
time-indexed fields.  We embed the numeric values as real numbers, a field
as a list of (timestamp, value) samples, and each Python function as a Lean
function on those.  The external array engine's resample-sum and
day-of-year group-by are modelled as grouping of the sample list by a
calendar bucket key, following the spec's description of those collaborator
semantics (sum/group the samples within each calendar bucket, absent
samples simply omitted).
-/

/-- Timestamp of one hourly sample: a UTC calendar date plus the hour of day. -/
structure DateTime where
  year : Nat
  month : Nat
  day : Nat
  hour : Nat
deriving DecidableEq

/-- TimeSeries (the spec's Field): a time-indexed series of real samples (one grid point / site). -/
abbrev TimeSeries := List (DateTime × ℝ)

/-- Start of the UTC calendar day containing `t` (the label of its daily bucket). -/
def dailyBucket (t : DateTime) : DateTime :=
  ⟨t.year, t.month, t.day, 0⟩

/-- Start of the calendar month containing `t` (the label of its monthly bucket). -/
def monthlyBucket (t : DateTime) : DateTime :=
  ⟨t.year, t.month, 1, 0⟩

/-- Start of the calendar year containing `t` (the label of its yearly bucket). -/
def yearlyBucket (t : DateTime) : DateTime :=
  ⟨t.year, 1, 1, 0⟩

/-- Bucket labels present in a field, in order of first appearance.  Part of the
model of the array engine's `resample(...).sum()` described by the spec. -/
def bucketKeys (key : DateTime → DateTime) (xs : TimeSeries) : List DateTime :=
  (xs.map (fun p => key p.1)).dedup

/-- Sum of the samples of `xs` falling in the bucket labelled `k`: samples that
are absent from `xs` (missing hours) are simply not summed. -/
def bucketTotal (key : DateTime → DateTime) (xs : TimeSeries) (k : DateTime) : ℝ :=
  ((xs.filter (fun p => key p.1 == k)).map Prod.snd).sum

/-- Resample-to-sum over calendar buckets: one output sample per bucket label
present in the input, holding the sum of the input samples of that bucket.
Models `xs.resample(time=...).sum()` as the spec describes it. -/
def resampleSum (key : DateTime → DateTime) (xs : TimeSeries) : TimeSeries :=
  (bucketKeys key xs).map (fun k => (k, bucketTotal key xs k))

/-- Hourly heating-degree value of one sample, src/energy.py line 49:
`xr.where(temperature_da < base_temp, base_temp - temperature_da, 0)`. -/
noncomputable def hourly_hdd_value (base_temp temperature : ℝ) : ℝ :=
  if temperature < base_temp then base_temp - temperature else 0

/-- Heating degree days, src/energy.py `calculate_heating_degree_days`
(lines 23-98): hourly HDD first, then aggregation by the requested period;
an unrecognized period is a `ValueError`, embedded as `Except.error`.  The
embedded message drops the quote characters around the four period names
(string punctuation only); its content is otherwise that of line 95. -/
noncomputable def calculate_heating_degree_days
    (temperature_da : TimeSeries) (base_temp : ℝ) (aggregation : String) :
    Except String TimeSeries :=
  let hourly_hdd := temperature_da.map (fun p => (p.1, hourly_hdd_value base_temp p.2))
  if aggregation = "hourly" then Except.ok hourly_hdd
  else if aggregation = "daily" then Except.ok (resampleSum dailyBucket hourly_hdd)
  else if aggregation = "monthly" then Except.ok (resampleSum monthlyBucket hourly_hdd)
  else if aggregation = "yearly" then Except.ok (resampleSum yearlyBucket hourly_hdd)
  else Except.error ("Invalid aggregation: " ++ aggregation ++
    ". Must be hourly, daily, monthly, or yearly")

/-- Solar production, src/energy.py `calculate_solar_production` (lines
101-135).  The Python defaults are panel_capacity_mw = 1.0,
efficiency_ref = 0.20, temp_coeff = -0.004; here they are passed explicitly. -/
noncomputable def calculate_solar_production
    (ssrd t2 panel_capacity_mw efficiency_ref temp_coeff : ℝ) : ℝ :=
  let irradiance := ssrd / 3600
  let temp_celsius := t2 - 273.15
  let temp_correction := 1 + temp_coeff * (temp_celsius - 25)
  let production :=
    panel_capacity_mw * (irradiance / 1000) * efficiency_ref * temp_correction
  max production 0

/-- Wind speed from the two components, src/energy.py lines 138-140. -/
noncomputable def calculate_wind_speed (u v : ℝ) : ℝ :=
  Real.sqrt (u ^ 2 + v ^ 2)

/-- The sequential `xr.where` power-curve chain of src/energy.py lines 170-188,
evaluated at one wind-speed value. -/
noncomputable def windPowerCurve (turbine_capacity_mw wind_speed : ℝ) : ℝ :=
  let production : ℝ := 0
  let production := if wind_speed < 3 then 0 else production
  let production :=
    if 3 ≤ wind_speed ∧ wind_speed < 12 then
      turbine_capacity_mw * ((wind_speed - 3) / (12 - 3)) ^ 3
    else production
  let production :=
    if 12 ≤ wind_speed ∧ wind_speed < 25 then turbine_capacity_mw else production
  if 25 ≤ wind_speed then 0 else production

/-- Wind production, src/energy.py `calculate_wind_production` (lines 143-201):
the power curve of the wind speed, then the air-density correction exactly when
both optional inputs are present.  The Python default turbine_capacity_mw = 1.0
is passed explicitly here. -/
noncomputable def calculate_wind_production
    (u100 v100 : ℝ) (sp t2 : Option ℝ) (turbine_capacity_mw : ℝ) : ℝ :=
  let wind_speed := calculate_wind_speed u100 v100
  let production := windPowerCurve turbine_capacity_mw wind_speed
  match sp, t2 with
  | some p, some t =>
      let rho_standard : ℝ := 1.225
      let R_specific : ℝ := 287.05
      let rho_actual := p / (R_specific * t)
      let density_correction := rho_actual / rho_standard
      production * density_correction
  | _, _ => production

/-- The four-branch wind power curve exactly as the spec's table in section 4.3
writes it, branch by branch, boundary values in the higher-range branch. -/
noncomputable def specFourBranchCurve (cap w : ℝ) : ℝ :=
  if w < 3 then 0
  else if w < 12 then cap * ((w - 3) / 9) ^ 3
  else if w < 25 then cap
  else 0

/-- Input dataset of `calculate_renewable_production`: the five ERA5 variables
it reads, at one sample point (the function is elementwise in all of them). -/
structure Dataset where
  ssrd : ℝ
  t2 : ℝ
  u100 : ℝ
  v100 : ℝ
  sp : ℝ

/-- Human-readable metadata attached to an output variable (`attrs`). -/
structure VarAttrs where
  long_name : String
  units : String
  description : String
deriving DecidableEq

/-- Output dataset of `calculate_renewable_production`: the two production
variables with their attached metadata. -/
structure RenewableProduction where
  solar_production : ℝ
  wind_production : ℝ
  solar_attrs : VarAttrs
  wind_attrs : VarAttrs

/-- Joint renewable production, src/energy.py `calculate_renewable_production`
(lines 205-241): solar with capacity 1.0 (and the solar defaults 0.20 and
-0.004), wind with capacity 2.0 and both density-correction inputs supplied,
plus the `attrs` dictionaries of lines 229-239. -/
noncomputable def calculate_renewable_production (ds : Dataset) : RenewableProduction :=
  let solar_prod := calculate_solar_production ds.ssrd ds.t2 1.0 0.20 (-0.004)
  let wind_prod := calculate_wind_production ds.u100 ds.v100 (some ds.sp) (some ds.t2) 2.0
  { solar_production := solar_prod
    wind_production := wind_prod
    solar_attrs :=
      { long_name := "Solar power production"
        units := "MW"
        description := "Estimated solar power production per MW installed capacity" }
    wind_attrs :=
      { long_name := "Wind power production"
        units := "MW"
        description := "Estimated wind power production per 2MW turbine" } }

/-
The float semantics of line 49 at a missing (NaN) sample, for the implicit
claim about gaps: a NaN operand makes a comparison false, and subtraction
propagates NaN.  A missing value is `none`.
-/

/-- Float less-than with missing values: any missing (NaN) operand compares false. -/
noncomputable def floatLt (a b : Option ℝ) : Bool :=
  match a, b with
  | some x, some y => decide (x < y)
  | _, _ => false

/-- Float subtraction with missing values: a missing (NaN) operand propagates. -/
def floatSub (a b : Option ℝ) : Option ℝ :=
  match a, b with
  | some x, some y => some (x - y)
  | _, _ => none

/-- Elementwise `xr.where(cond, a, b)` at one point. -/
def xrWhere (cond : Bool) (a b : Option ℝ) : Option ℝ :=
  if cond then a else b

/-- Line 49 of src/energy.py evaluated at one possibly-missing temperature
sample under float (NaN) semantics:
`xr.where(temperature_da < base_temp, base_temp - temperature_da, 0)`. -/
noncomputable def hourly_hdd_nan (base_temp temperature : Option ℝ) : Option ℝ :=
  xrWhere (floatLt temperature base_temp) (floatSub base_temp temperature) (some 0)

/-
Climatology, from the cells of src/demand.py lines 136-143:
  hdd_daily_temp = hdd.sel(time=CLIMATE_EPOCH).load()
  hdd_climatology_mean = hdd_daily_temp.groupby("time.dayofyear").mean(dim="time")
  hdd_climatology_std = hdd_daily_temp.groupby("time.dayofyear").std(dim="time")
with CLIMATE_EPOCH = slice("1975-01-01", "2020-12-31") from src/energy.py line
20.  The label-based `sel` keeps every sample of the two endpoint dates
(inclusive both ends), so the epoch test below compares calendar dates and
ignores the hour.  `groupby("time.dayofyear")` groups by the calendar
day-of-year (Feb 29 of a leap year is its own group); `mean`/`std` are the
array engine's grouped statistics, `std` with its default divisor N (ddof = 0).
-/

/-- Gregorian leap-year rule. -/
def isLeapYear (y : Nat) : Bool :=
  y % 4 == 0 && (y % 100 != 0 || y % 400 == 0)

/-- Length of month `m` (1-12) of year `y`. -/
def daysInMonth (y m : Nat) : Nat :=
  if m == 2 then (if isLeapYear y then 29 else 28)
  else if m == 4 || m == 6 || m == 9 || m == 11 then 30
  else 31

/-- Calendar day-of-year of a timestamp (1-365, 366 in leap years). -/
def dayOfYear (t : DateTime) : Nat :=
  ((List.range (t.month - 1)).map (fun i => daysInMonth t.year (i + 1))).sum + t.day

/-- Calendar-date order, ignoring the hour (label-based date slicing keeps the
whole endpoint day). -/
def dateLE (a b : DateTime) : Bool :=
  if a.year = b.year then
    (if a.month = b.month then decide (a.day ≤ b.day) else decide (a.month < b.month))
  else decide (a.year < b.year)

/-- Start of `CLIMATE_EPOCH`, src/energy.py line 20. -/
def CLIMATE_EPOCH_START : DateTime := ⟨1975, 1, 1, 0⟩

/-- End of `CLIMATE_EPOCH`, src/energy.py line 20. -/
def CLIMATE_EPOCH_STOP : DateTime := ⟨2020, 12, 31, 0⟩

/-- Whether a timestamp falls inside `CLIMATE_EPOCH`, inclusive of both
endpoint dates. -/
def inClimateEpoch (t : DateTime) : Bool :=
  dateLE CLIMATE_EPOCH_START t && dateLE t CLIMATE_EPOCH_STOP

/-- The samples of `xs` that `sel(time=CLIMATE_EPOCH)` keeps. -/
def epochSel (xs : TimeSeries) : TimeSeries :=
  xs.filter (fun p => inClimateEpoch p.1)

/-- The day-of-year group `d` of the epoch-restricted series: the values, over
all years of the epoch, whose timestamp has day-of-year `d`. -/
def doyValues (xs : TimeSeries) (d : Nat) : List ℝ :=
  ((epochSel xs).filter (fun p => dayOfYear p.1 == d)).map Prod.snd

/-- Grouped climatology mean of day-of-year group `d`. -/
noncomputable def climatologyMean (xs : TimeSeries) (d : Nat) : ℝ :=
  (doyValues xs d).sum / (doyValues xs d).length

/-- Grouped climatology variance of day-of-year group `d`, with the array
engine's default divisor N (ddof = 0). -/
noncomputable def climatologyVar (xs : TimeSeries) (d : Nat) : ℝ :=
  ((doyValues xs d).map (fun x => (x - climatologyMean xs d) ^ 2)).sum
    / (doyValues xs d).length

/-- Grouped climatology standard deviation of day-of-year group `d`, as the
code computes it: the square root of the divisor-N variance. -/
noncomputable def climatologyStd (xs : TimeSeries) (d : Nat) : ℝ :=
  Real.sqrt (climatologyVar xs d)

/-- Modelled from the spec: the claim's phrase sample standard deviation, i.e.
the Bessel-corrected statistic with divisor N - 1 (ddof = 1), which is not in
the source; written out here only to be compared with `climatologyStd`. -/
noncomputable def sampleStd (xs : TimeSeries) (d : Nat) : ℝ :=
  Real.sqrt
    (((doyValues xs d).map (fun x => (x - climatologyMean xs d) ^ 2)).sum
      / ((doyValues xs d).length - 1))

/-
Helper lemmas (shared; not claim theorems).
-/

lemma windPowerCurve_eq_spec (cap w : ℝ) :
    windPowerCurve cap w = specFourBranchCurve cap w := by
  simp only [windPowerCurve, specFourBranchCurve]
  rcases lt_or_le w 3 with h1 | h1
  · have a1 : ¬ (3 ≤ w ∧ w < 12) := by rintro ⟨h, _⟩; linarith
    have a2 : ¬ (12 ≤ w ∧ w < 25) := by rintro ⟨h, _⟩; linarith
    have a3 : ¬ (25 ≤ w) := by linarith
    simp [h1, a1, a2, a3]
  · rcases lt_or_le w 12 with h2 | h2
    · have a0 : ¬ w < 3 := not_lt.mpr h1
      have a1 : 3 ≤ w ∧ w < 12 := ⟨h1, h2⟩
      have a2 : ¬ (12 ≤ w ∧ w < 25) := by rintro ⟨h, _⟩; linarith
      have a3 : ¬ (25 ≤ w) := by linarith
      simp only [if_neg a0, if_pos a1, if_neg a2, if_neg a3, if_pos h2]
      norm_num
    · rcases lt_or_le w 25 with h3 | h3
      · have a0 : ¬ w < 3 := by push_neg; linarith
        have a1 : ¬ (3 ≤ w ∧ w < 12) := by rintro ⟨_, h⟩; linarith
        have a2 : 12 ≤ w ∧ w < 25 := ⟨h2, h3⟩
        have a3 : ¬ (25 ≤ w) := by linarith
        have a4 : ¬ w < 12 := not_lt.mpr h2
        simp [a0, a1, a2, a3, a4, h3]
      · have a0 : ¬ w < 3 := by push_neg; linarith
        have a1 : ¬ (3 ≤ w ∧ w < 12) := by rintro ⟨_, h⟩; linarith
        have a2 : ¬ (12 ≤ w ∧ w < 25) := by rintro ⟨_, h⟩; linarith
        have a4 : ¬ w < 12 := by push_neg; linarith
        have a5 : ¬ w < 25 := not_lt.mpr h3
        simp [a0, a1, a2, a4, a5, h3]

lemma specFourBranchCurve_nonneg (cap w : ℝ) (hcap : 0 ≤ cap) :
    0 ≤ specFourBranchCurve cap w := by
  unfold specFourBranchCurve
  split_ifs with h1 h2 h3
  · exact le_refl 0
  · have hx : 0 ≤ (w - 3) / 9 := div_nonneg (by push_neg at h1; linarith) (by norm_num)
    exact mul_nonneg hcap (pow_nonneg hx 3)
  · exact hcap
  · exact le_refl 0

lemma specFourBranchCurve_le_cap (cap w : ℝ) (hcap : 0 ≤ cap) :
    specFourBranchCurve cap w ≤ cap := by
  unfold specFourBranchCurve
  split_ifs with h1 h2 h3
  · exact hcap
  · have hx0 : 0 ≤ (w - 3) / 9 := div_nonneg (by push_neg at h1; linarith) (by norm_num)
    have hx1 : (w - 3) / 9 ≤ 1 := by
      rw [div_le_one (by norm_num : (0:ℝ) < 9)]; linarith
    calc cap * ((w - 3) / 9) ^ 3 ≤ cap * 1 :=
          mul_le_mul_of_nonneg_left (pow_le_one₀ hx0 hx1) hcap
      _ = cap := mul_one cap
  · exact le_refl cap
  · exact hcap

lemma wind_production_uncorrected (u v cap : ℝ) :
    calculate_wind_production u v none none cap
      = specFourBranchCurve cap (Real.sqrt (u ^ 2 + v ^ 2)) := by
  simp only [calculate_wind_production, calculate_wind_speed]
  exact windPowerCurve_eq_spec cap (Real.sqrt (u ^ 2 + v ^ 2))

lemma wind_speed_axis (u : ℝ) (h : 0 ≤ u) : calculate_wind_speed u 0 = u := by
  rw [calculate_wind_speed, show u ^ 2 + 0 ^ 2 = u ^ 2 by ring, Real.sqrt_sq h]

/-
Claim theorems.
-/

/-- C2: for every ssrd, Kelvin temperature, capacity, reference efficiency and
temperature coefficient, `calculate_solar_production` equals
max(0, capacity * ((ssrd/3600)/1000) * efficiency * (1 + coeff * ((t2 - 273.15) - 25))),
so the output is never negative, and at panel_capacity_mw = 1.0,
ssrd = 3600000 J/m2, t2 = 298.15 K, reference_efficiency = 0.20 the output is
exactly 0.20 MW. -/
theorem solar_production_formula (ssrd t2 cap eff coeff : ℝ) :
    calculate_solar_production ssrd t2 cap eff coeff
      = max 0 (cap * ((ssrd / 3600) / 1000) * eff * (1 + coeff * ((t2 - 273.15) - 25)))
    ∧ 0 ≤ calculate_solar_production ssrd t2 cap eff coeff
    ∧ calculate_solar_production 3600000 298.15 1 0.20 (-0.004) = 0.20 := by
  refine ⟨?_, ?_, ?_⟩
  · simp only [calculate_solar_production]
    exact max_comm _ 0
  · simp only [calculate_solar_production]
    exact le_max_right _ 0
  · simp only [calculate_solar_production]
    norm_num [max_def]

/-- C6: the air-density correction of `calculate_wind_production` is applied
exactly when both surface pressure and temperature are provided; when applied
it multiplies the power-curve output by (sp / (287.05 * t2)) / 1.225, and when
either companion is absent the result is exactly the uncorrected power-curve
value (and no error is raised: the function is total). -/
theorem wind_density_correction_gate (u v cap sp t2 : ℝ) :
    calculate_wind_production u v (some sp) (some t2) cap
      = calculate_wind_production u v none none cap * ((sp / (287.05 * t2)) / 1.225)
    ∧ calculate_wind_production u v (some sp) none cap
      = calculate_wind_production u v none none cap
    ∧ calculate_wind_production u v none (some t2) cap
      = calculate_wind_production u v none none cap
    ∧ calculate_wind_production u v none none cap
      = windPowerCurve cap (calculate_wind_speed u v) := by
  refine ⟨rfl, rfl, rfl, rfl⟩

/-- C8: `calculate_renewable_production` is exactly the pair of
`calculate_solar_production` with capacity 1.0 and `calculate_wind_production`
with capacity 2.0 and the density correction applied, with unit MW metadata
attached to each output and no other effect. -/
theorem renewable_production_composition (ds : Dataset) :
    (calculate_renewable_production ds).solar_production
      = calculate_solar_production ds.ssrd ds.t2 1.0 0.20 (-0.004)
    ∧ (calculate_renewable_production ds).wind_production
      = calculate_wind_production ds.u100 ds.v100 (some ds.sp) (some ds.t2) 2.0
    ∧ (calculate_renewable_production ds).solar_attrs
      = { long_name := "Solar power production", units := "MW",
          description := "Estimated solar power production per MW installed capacity" }
    ∧ (calculate_renewable_production ds).wind_attrs
      = { long_name := "Wind power production", units := "MW",
          description := "Estimated wind power production per 2MW turbine" } := by
  refine ⟨rfl, rfl, rfl, rfl⟩

/-- C9: at a missing (NaN) temperature sample the hourly heating-degree value
of line 49 is 0, not missing: the NaN comparison is false, so the zero branch
is taken; at present samples it agrees with `hourly_hdd_value`. -/
theorem heating_degree_nan_becomes_zero (b : ℝ) :
    hourly_hdd_nan (some b) none = some 0
    ∧ hourly_hdd_nan (some b) none ≠ none
    ∧ ∀ t : ℝ, hourly_hdd_nan (some b) (some t) = some (hourly_hdd_value b t) := by
  refine ⟨rfl, by rw [show hourly_hdd_nan (some b) none = some 0 from rfl]; simp, ?_⟩
  intro t
  by_cases h : t < b <;>
    simp [hourly_hdd_nan, floatLt, floatSub, xrWhere, hourly_hdd_value, h]

lemma spec_curve_below (cap w : ℝ) (h : w < 3) : specFourBranchCurve cap w = 0 := by
  simp only [specFourBranchCurve, if_pos h]

lemma spec_curve_ramp (cap w : ℝ) (h1 : 3 ≤ w) (h2 : w < 12) :
    specFourBranchCurve cap w = cap * ((w - 3) / 9) ^ 3 := by
  simp only [specFourBranchCurve, if_neg (not_lt.mpr h1), if_pos h2]

lemma spec_curve_rated (cap w : ℝ) (h1 : 12 ≤ w) (h2 : w < 25) :
    specFourBranchCurve cap w = cap := by
  have a : ¬ w < 3 := by push_neg; linarith
  simp only [specFourBranchCurve, if_neg a, if_neg (not_lt.mpr h1), if_pos h2]

lemma spec_curve_cutout (cap w : ℝ) (h : 25 ≤ w) : specFourBranchCurve cap w = 0 := by
  have a : ¬ w < 3 := by push_neg; linarith
  have b : ¬ w < 12 := by push_neg; linarith
  simp only [specFourBranchCurve, if_neg a, if_neg b, if_neg (not_lt.mpr h)]

lemma wind_production_axis (u cap : ℝ) (h : 0 ≤ u) :
    calculate_wind_production u 0 none none cap = specFourBranchCurve cap u := by
  rw [wind_production_uncorrected, show u ^ 2 + 0 ^ 2 = u ^ 2 by ring, Real.sqrt_sq h]

/-- C1: with no pressure and no temperature supplied,
`calculate_wind_production` is the four-branch power curve of the wind speed
w = sqrt(u^2 + v^2); the four branches partition all wind speeds (boundary
values in the higher-range branch); the output lies in [0, capacity]; and with
capacity 2.0 the speeds 3, 7.5, 12, 25, 30 give 0, 0.25, 2, 0, 0. -/
theorem wind_production_power_curve (u v cap : ℝ) :
    calculate_wind_production u v none none cap
      = specFourBranchCurve cap (Real.sqrt (u ^ 2 + v ^ 2))
    ∧ (∀ w : ℝ,
        (w < 3 ∧ ¬ (3 ≤ w ∧ w < 12) ∧ ¬ (12 ≤ w ∧ w < 25) ∧ ¬ 25 ≤ w)
        ∨ ((3 ≤ w ∧ w < 12) ∧ ¬ w < 3 ∧ ¬ (12 ≤ w ∧ w < 25) ∧ ¬ 25 ≤ w)
        ∨ ((12 ≤ w ∧ w < 25) ∧ ¬ w < 3 ∧ ¬ (3 ≤ w ∧ w < 12) ∧ ¬ 25 ≤ w)
        ∨ (25 ≤ w ∧ ¬ w < 3 ∧ ¬ (3 ≤ w ∧ w < 12) ∧ ¬ (12 ≤ w ∧ w < 25)))
    ∧ (0 ≤ cap →
        0 ≤ calculate_wind_production u v none none cap
        ∧ calculate_wind_production u v none none cap ≤ cap)
    ∧ calculate_wind_production 3 0 none none 2 = 0
    ∧ calculate_wind_production 7.5 0 none none 2 = 0.25
    ∧ calculate_wind_production 12 0 none none 2 = 2
    ∧ calculate_wind_production 25 0 none none 2 = 0
    ∧ calculate_wind_production 30 0 none none 2 = 0 := by
  refine ⟨wind_production_uncorrected u v cap, ?_, ?_, ?_, ?_, ?_, ?_, ?_⟩
  · intro w
    rcases lt_or_le w 3 with h | h
    · exact Or.inl ⟨h, by rintro ⟨h2, _⟩; linarith, by rintro ⟨h2, _⟩; linarith,
        by linarith⟩
    · rcases lt_or_le w 12 with h2 | h2
      · exact Or.inr (Or.inl ⟨⟨h, h2⟩, not_lt.mpr h, by rintro ⟨h3, _⟩; linarith,
          by linarith⟩)
      · rcases lt_or_le w 25 with h3 | h3
        · exact Or.inr (Or.inr (Or.inl ⟨⟨h2, h3⟩, by push_neg; linarith,
            by rintro ⟨_, h4⟩; linarith, by linarith⟩))
        · exact Or.inr (Or.inr (Or.inr ⟨h3, by push_neg; linarith,
            by rintro ⟨_, h4⟩; linarith, by rintro ⟨_, h4⟩; linarith⟩))
  · intro hcap
    rw [wind_production_uncorrected]
    exact ⟨specFourBranchCurve_nonneg cap _ hcap, specFourBranchCurve_le_cap cap _ hcap⟩
  · rw [wind_production_axis 3 2 (by norm_num),
      spec_curve_ramp 2 3 (by norm_num) (by norm_num)]
    norm_num
  · rw [wind_production_axis 7.5 2 (by norm_num),
      spec_curve_ramp 2 7.5 (by norm_num) (by norm_num)]
    norm_num
  · rw [wind_production_axis 12 2 (by norm_num),
      spec_curve_rated 2 12 (by norm_num) (by norm_num)]
  · rw [wind_production_axis 25 2 (by norm_num),
      spec_curve_cutout 2 25 (by norm_num)]
  · rw [wind_production_axis 30 2 (by norm_num),
      spec_curve_cutout 2 30 (by norm_num)]

/-- C1 witness: the theorem applied at u = 7.5, v = 0, cap = 2, with the inner
bound hypothesis 0 <= 2 discharged, evaluates the production to 0.25 and puts
it inside [0, 2]. -/
theorem wind_production_power_curve_witness :
    calculate_wind_production 7.5 0 none none 2 = 0.25
    ∧ 0 ≤ calculate_wind_production 7.5 0 none none 2
    ∧ calculate_wind_production 7.5 0 none none 2 ≤ 2 := by
  obtain ⟨-, -, hb, -, hc, -⟩ := wind_production_power_curve 7.5 0 2
  obtain ⟨h0, h2⟩ := hb (by norm_num)
  exact ⟨hc, h0, h2⟩

/-- C10: for a fixed non-negative capacity and no density correction, the
power curve of src/energy.py lines 170-188 is monotone non-decreasing below
the 25 m/s cut-out. -/
theorem wind_power_curve_monotone (cap w1 w2 : ℝ)
    (hcap : 0 ≤ cap) (hw : w1 ≤ w2) (hco : w2 < 25) :
    windPowerCurve cap w1 ≤ windPowerCurve cap w2 := by
  rw [windPowerCurve_eq_spec, windPowerCurve_eq_spec]
  rcases lt_or_le w2 3 with h | h
  · rw [spec_curve_below cap w1 (lt_of_le_of_lt hw h), spec_curve_below cap w2 h]
  · rcases lt_or_le w2 12 with h2 | h2
    · rw [spec_curve_ramp cap w2 h h2]
      rcases lt_or_le w1 3 with g | g
      · rw [spec_curve_below cap w1 g]
        have hx : 0 ≤ (w2 - 3) / 9 := div_nonneg (by linarith) (by norm_num)
        exact mul_nonneg hcap (pow_nonneg hx 3)
      · rw [spec_curve_ramp cap w1 g (by linarith)]
        have a0 : 0 ≤ (w1 - 3) / 9 := div_nonneg (by linarith) (by norm_num)
        have a1 : (w1 - 3) / 9 ≤ (w2 - 3) / 9 :=
          (div_le_div_iff_of_pos_right (by norm_num : (0:ℝ) < 9)).mpr (by linarith)
        exact mul_le_mul_of_nonneg_left (pow_le_pow_left₀ a0 a1 3) hcap
    · rw [spec_curve_rated cap w2 h2 hco]
      exact specFourBranchCurve_le_cap cap w1 hcap

/-- C10 witness: the theorem applied at cap = 2, w1 = 5, w2 = 13, the
hypotheses discharged there by norm_num. -/
theorem wind_power_curve_monotone_witness :
    (0:ℝ) ≤ 2 ∧ (5:ℝ) ≤ 13 ∧ (13:ℝ) < 25
    ∧ windPowerCurve 2 5 ≤ windPowerCurve 2 13 := by
  exact ⟨by norm_num, by norm_num, by norm_num,
    wind_power_curve_monotone 2 5 13 (by norm_num) (by norm_num) (by norm_num)⟩

lemma hourly_hdd_value_eq_max (b t : ℝ) : hourly_hdd_value b t = max 0 (b - t) := by
  unfold hourly_hdd_value
  rcases lt_or_le t b with h | h
  · rw [if_pos h, max_eq_right (by linarith)]
  · rw [if_neg (not_lt.mpr h), max_eq_left (by linarith)]

lemma mem_resampleSum_eq_bucketTotal {key : DateTime → DateTime} {xs : TimeSeries}
    {k : DateTime} {val : ℝ} (h : (k, val) ∈ resampleSum key xs) :
    val = bucketTotal key xs k := by
  simp only [resampleSum, List.mem_map] at h
  obtain ⟨a, -, ha⟩ := h
  simp only [Prod.mk.injEq] at ha
  obtain ⟨rfl, h2⟩ := ha
  exact h2.symm

lemma bucket_mem_resampleSum {key : DateTime → DateTime} {xs : TimeSeries}
    {k : DateTime} (h : ∃ p ∈ xs, key p.1 = k) :
    (k, bucketTotal key xs k) ∈ resampleSum key xs := by
  apply List.mem_map.mpr
  refine ⟨k, ?_, rfl⟩
  simp only [bucketKeys, List.mem_dedup, List.mem_map]
  obtain ⟨p, hp, hk⟩ := h
  exact ⟨p, hp, hk⟩

/-- C3: the hourly heating-degree value at each point equals
max(0, base_temp - temperature): the hourly output of
`calculate_heating_degree_days` is that clamp applied pointwise, so it is
non-negative everywhere and exactly zero wherever temperature >= base_temp. -/
theorem heating_degree_hourly_clamp (f : TimeSeries) (b : ℝ) :
    calculate_heating_degree_days f b "hourly"
      = Except.ok (f.map (fun p => (p.1, max 0 (b - p.2))))
    ∧ (∀ p ∈ f, 0 ≤ hourly_hdd_value b p.2)
    ∧ (∀ p ∈ f, b ≤ p.2 → hourly_hdd_value b p.2 = 0) := by
  refine ⟨?_, ?_, ?_⟩
  · have hmap : (fun p : DateTime × ℝ => (p.1, hourly_hdd_value b p.2))
        = (fun p : DateTime × ℝ => (p.1, max 0 (b - p.2))) := by
      funext p; rw [hourly_hdd_value_eq_max]
    calc calculate_heating_degree_days f b "hourly"
        = Except.ok (f.map (fun p => (p.1, hourly_hdd_value b p.2))) := rfl
      _ = Except.ok (f.map (fun p => (p.1, max 0 (b - p.2)))) := by rw [hmap]
  · intro p _
    rw [hourly_hdd_value_eq_max]
    exact le_max_left 0 _
  · intro p _ h
    rw [hourly_hdd_value_eq_max, max_eq_left (by linarith)]

/-- C3 witness: the theorem applied to the one-sample field at temperature 20
with base 18 (temperature above base), giving the zero output. -/
theorem heating_degree_hourly_clamp_witness :
    calculate_heating_degree_days [(⟨2021, 2, 14, 0⟩, 20)] 18 "hourly"
      = Except.ok [(⟨2021, 2, 14, 0⟩, 0)]
    ∧ hourly_hdd_value 18 20 = 0 := by
  obtain ⟨h1, -, h3⟩ := heating_degree_hourly_clamp [(⟨2021, 2, 14, 0⟩, 20)] 18
  constructor
  · rw [h1]
    norm_num [max_def]
  · exact h3 ((⟨2021, 2, 14, 0⟩ : DateTime), (20 : ℝ)) (by simp) (by norm_num)

/-- C4: for daily, monthly and yearly aggregation, the heating-degree output
at each calendar bucket equals the sum of the hourly heating-degree values
whose timestamps fall in that bucket (samples absent from the input are simply
omitted from the sum), and every non-empty bucket is present in the output. -/
theorem heating_degree_bucket_sum (f : TimeSeries) (b : ℝ)
    (agg : String) (key : DateTime → DateTime)
    (hagg : (agg = "daily" ∧ key = dailyBucket)
      ∨ (agg = "monthly" ∧ key = monthlyBucket)
      ∨ (agg = "yearly" ∧ key = yearlyBucket))
    (hourlyOut aggOut : TimeSeries)
    (hH : calculate_heating_degree_days f b "hourly" = Except.ok hourlyOut)
    (hA : calculate_heating_degree_days f b agg = Except.ok aggOut) :
    (∀ k val, (k, val) ∈ aggOut →
        val = ((hourlyOut.filter (fun p => key p.1 == k)).map Prod.snd).sum)
    ∧ (∀ k, (∃ p ∈ hourlyOut, key p.1 = k) →
        (k, ((hourlyOut.filter (fun p => key p.1 == k)).map Prod.snd).sum)
          ∈ aggOut) := by
  have h1 : hourlyOut = f.map (fun p => (p.1, hourly_hdd_value b p.2)) := by
    have e : calculate_heating_degree_days f b "hourly"
        = Except.ok (f.map (fun p => (p.1, hourly_hdd_value b p.2))) := rfl
    rw [e] at hH
    injection hH with h
    exact h.symm
  have h2 : aggOut = resampleSum key hourlyOut := by
    rw [h1]
    rcases hagg with ⟨ha, hk⟩ | ⟨ha, hk⟩ | ⟨ha, hk⟩ <;> subst ha <;> subst hk
    · have e : calculate_heating_degree_days f b "daily"
          = Except.ok (resampleSum dailyBucket
              (f.map (fun p => (p.1, hourly_hdd_value b p.2)))) := rfl
      rw [e] at hA
      injection hA with h
      exact h.symm
    · have e : calculate_heating_degree_days f b "monthly"
          = Except.ok (resampleSum monthlyBucket
              (f.map (fun p => (p.1, hourly_hdd_value b p.2)))) := rfl
      rw [e] at hA
      injection hA with h
      exact h.symm
    · have e : calculate_heating_degree_days f b "yearly"
          = Except.ok (resampleSum yearlyBucket
              (f.map (fun p => (p.1, hourly_hdd_value b p.2)))) := rfl
      rw [e] at hA
      injection hA with h
      exact h.symm
  subst h2
  constructor
  · intro k val hk
    exact mem_resampleSum_eq_bucketTotal hk
  · intro k hk
    exact bucket_mem_resampleSum hk

/-- C4 witness: the theorem applied to a one-sample field (2021-02-14 05:00,
10 degrees C) with base 18 and daily aggregation; the hourly output holds 8
degree-hours and the daily bucket 2021-02-14 sums to it. -/
theorem heating_degree_bucket_sum_witness :
    calculate_heating_degree_days [(⟨2021, 2, 14, 5⟩, 10)] 18 "hourly"
      = Except.ok [(⟨2021, 2, 14, 5⟩, 8)]
    ∧ calculate_heating_degree_days [(⟨2021, 2, 14, 5⟩, 10)] 18 "daily"
      = Except.ok [(⟨2021, 2, 14, 0⟩, 8)]
    ∧ (8 : ℝ) = ((([((⟨2021, 2, 14, 5⟩ : DateTime), (8 : ℝ))].filter
        (fun p => dailyBucket p.1 == (⟨2021, 2, 14, 0⟩ : DateTime))).map Prod.snd).sum) := by
  have hv : hourly_hdd_value 18 10 = 8 := by
    unfold hourly_hdd_value
    rw [if_pos (by norm_num : (10:ℝ) < 18)]
    norm_num
  have hH : calculate_heating_degree_days [(⟨2021, 2, 14, 5⟩, 10)] 18 "hourly"
      = Except.ok [(⟨2021, 2, 14, 5⟩, 8)] := by
    have e : calculate_heating_degree_days [(⟨2021, 2, 14, 5⟩, 10)] 18 "hourly"
        = Except.ok [(⟨2021, 2, 14, 5⟩, hourly_hdd_value 18 10)] := rfl
    rw [e, hv]
  have hA : calculate_heating_degree_days [(⟨2021, 2, 14, 5⟩, 10)] 18 "daily"
      = Except.ok [(⟨2021, 2, 14, 0⟩, 8)] := by
    have e : calculate_heating_degree_days [(⟨2021, 2, 14, 5⟩, 10)] 18 "daily"
        = Except.ok (resampleSum dailyBucket
            [(⟨2021, 2, 14, 5⟩, hourly_hdd_value 18 10)]) := rfl
    rw [e, hv]
    simp [resampleSum, bucketKeys, bucketTotal, dailyBucket]
  obtain ⟨hval, -⟩ := heating_degree_bucket_sum [(⟨2021, 2, 14, 5⟩, 10)] 18 "daily"
    dailyBucket (Or.inl ⟨rfl, rfl⟩) [(⟨2021, 2, 14, 5⟩, 8)] [(⟨2021, 2, 14, 0⟩, 8)] hH hA
  exact ⟨hH, hA, hval ⟨2021, 2, 14, 0⟩ 8 (by simp)⟩

lemma hdd_ok_of_valid (f : TimeSeries) (b : ℝ) (agg : String)
    (h : agg = "hourly" ∨ agg = "daily" ∨ agg = "monthly" ∨ agg = "yearly") :
    ∃ out, calculate_heating_degree_days f b agg = Except.ok out := by
  rcases h with rfl | rfl | rfl | rfl
  · exact ⟨_, rfl⟩
  · exact ⟨_, rfl⟩
  · exact ⟨_, rfl⟩
  · exact ⟨_, rfl⟩

lemma hdd_error_of_invalid (f : TimeSeries) (b : ℝ) (agg : String)
    (h1 : ¬ agg = "hourly") (h2 : ¬ agg = "daily")
    (h3 : ¬ agg = "monthly") (h4 : ¬ agg = "yearly") :
    calculate_heating_degree_days f b agg
      = Except.error ("Invalid aggregation: " ++ agg ++
          ". Must be hourly, daily, monthly, or yearly") := by
  simp only [calculate_heating_degree_days, if_neg h1, if_neg h2, if_neg h3, if_neg h4]

/-- C7: `calculate_heating_degree_days` fails exactly when the aggregation
argument is outside the four recognized values, and the error message names
the offending value and the accepted set; every recognized value returns a
result, so this is the only validation failure. -/
theorem heating_degree_aggregation_validation (f : TimeSeries) (b : ℝ) (agg : String) :
    ((∃ e, calculate_heating_degree_days f b agg = Except.error e)
      ↔ agg ∉ (["hourly", "daily", "monthly", "yearly"] : List String))
    ∧ (∀ e, calculate_heating_degree_days f b agg = Except.error e →
        e = "Invalid aggregation: " ++ agg ++
          ". Must be hourly, daily, monthly, or yearly") := by
  constructor
  · constructor
    · rintro ⟨e, he⟩ hmem
      simp only [List.mem_cons, List.not_mem_nil, or_false] at hmem
      obtain ⟨out, hout⟩ := hdd_ok_of_valid f b agg hmem
      rw [hout] at he
      exact Except.noConfusion he
    · intro hmem
      simp only [List.mem_cons, List.not_mem_nil, or_false, not_or] at hmem
      obtain ⟨h1, h2, h3, h4⟩ := hmem
      exact ⟨_, hdd_error_of_invalid f b agg h1 h2 h3 h4⟩
  · intro e he
    by_cases hmem : agg ∈ (["hourly", "daily", "monthly", "yearly"] : List String)
    · simp only [List.mem_cons, List.not_mem_nil, or_false] at hmem
      obtain ⟨out, hout⟩ := hdd_ok_of_valid f b agg hmem
      rw [hout] at he
      exact Except.noConfusion he
    · simp only [List.mem_cons, List.not_mem_nil, or_false, not_or] at hmem
      obtain ⟨h1, h2, h3, h4⟩ := hmem
      rw [hdd_error_of_invalid f b agg h1 h2 h3 h4] at he
      injection he with h
      exact h.symm

/-- C7 witness: the theorem applied at aggregation bogus on a one-sample
field, yielding the error with its message. -/
theorem heating_degree_aggregation_validation_witness :
    calculate_heating_degree_days [(⟨2021, 2, 14, 0⟩, 10)] 18 "bogus"
      = Except.error ("Invalid aggregation: " ++ "bogus" ++
          ". Must be hourly, daily, monthly, or yearly") := by
  obtain ⟨hiff, hmsg⟩ :=
    heating_degree_aggregation_validation [(⟨2021, 2, 14, 0⟩, 10)] 18 "bogus"
  obtain ⟨e, he⟩ := hiff.mpr (by decide)
  rw [he, hmsg e he]

/-- C5 counterexample: on the concrete daily field holding the value 0 on
1975-01-01 and the value 2 on 1976-01-01 (both inside the epoch, both
day-of-year 1), the code's grouped standard deviation is sqrt(1) = 1 (divisor
N = 2) while the claim's sample standard deviation is sqrt(2) (divisor
N - 1 = 1), so the computation does not produce the sample standard
deviation. -/
theorem climatology_sample_std_counterexample :
    climatologyStd [(⟨1975, 1, 1, 0⟩, 0), (⟨1976, 1, 1, 0⟩, 2)] 1
      ≠ sampleStd [(⟨1975, 1, 1, 0⟩, 0), (⟨1976, 1, 1, 0⟩, 2)] 1 := by
  have hvals : doyValues [(⟨1975, 1, 1, 0⟩, (0:ℝ)), (⟨1976, 1, 1, 0⟩, 2)] 1
      = [0, 2] := rfl
  have hmean : climatologyMean [(⟨1975, 1, 1, 0⟩, (0:ℝ)), (⟨1976, 1, 1, 0⟩, 2)] 1
      = 1 := by
    unfold climatologyMean
    rw [hvals]
    norm_num [List.sum_cons, List.sum_nil]
  have hvar : climatologyVar [(⟨1975, 1, 1, 0⟩, (0:ℝ)), (⟨1976, 1, 1, 0⟩, 2)] 1
      = 1 := by
    unfold climatologyVar
    rw [hvals, hmean]
    norm_num [List.map_cons, List.map_nil, List.sum_cons, List.sum_nil]
  have hstd : climatologyStd [(⟨1975, 1, 1, 0⟩, (0:ℝ)), (⟨1976, 1, 1, 0⟩, 2)] 1
      = 1 := by
    unfold climatologyStd
    rw [hvar, Real.sqrt_one]
  have hsample : sampleStd [(⟨1975, 1, 1, 0⟩, (0:ℝ)), (⟨1976, 1, 1, 0⟩, 2)] 1
      = Real.sqrt 2 := by
    unfold sampleStd
    rw [hvals, hmean]
    norm_num [List.map_cons, List.map_nil, List.sum_cons, List.sum_nil]
  rw [hstd, hsample]
  have h2 : (1:ℝ) < Real.sqrt 2 := by
    rw [show (1:ℝ) = Real.sqrt 1 from (Real.sqrt_one).symm]
    exact Real.sqrt_lt_sqrt (by norm_num) (by norm_num)
  exact ne_of_lt h2

/-- C5 (amended): the climatology restricts the field to the epoch 1975-01-01
through 2020-12-31 inclusive of both endpoint dates, groups by calendar
day-of-year, and computes each group's mean and its population standard
deviation (divisor N, the array library's default ddof = 0, not the
Bessel-corrected sample statistic); over an epoch containing exactly one
sample in a day-of-year group, the grouped mean returns that sample's value
unchanged and the std of the group is 0. -/
theorem climatology_epoch_doy_stats (f : TimeSeries) (d : Nat) (x : ℝ)
    (h : doyValues f d = [x]) :
    climatologyMean f d = x
    ∧ climatologyStd f d = 0
    ∧ inClimateEpoch ⟨1975, 1, 1, 0⟩ = true
    ∧ inClimateEpoch ⟨2020, 12, 31, 23⟩ = true
    ∧ inClimateEpoch ⟨1974, 12, 31, 23⟩ = false
    ∧ inClimateEpoch ⟨2021, 1, 1, 0⟩ = false := by
  have hm : climatologyMean f d = x := by
    unfold climatologyMean
    rw [h]
    norm_num [List.sum_cons, List.sum_nil]
  have hv : climatologyVar f d = 0 := by
    unfold climatologyVar
    rw [h, hm]
    norm_num [List.map_cons, List.map_nil, List.sum_cons, List.sum_nil]
  have hs : climatologyStd f d = 0 := by
    unfold climatologyStd
    rw [hv, Real.sqrt_zero]
  exact ⟨hm, hs, by decide, by decide, by decide, by decide⟩

/-- C5 witness: the amended theorem applied to the one-sample field holding 5
on 2000-01-02 (day-of-year 2, inside the epoch). -/
theorem climatology_epoch_doy_stats_witness :
    doyValues [(⟨2000, 1, 2, 0⟩, 5)] 2 = [5]
    ∧ climatologyMean [(⟨2000, 1, 2, 0⟩, 5)] 2 = 5
    ∧ climatologyStd [(⟨2000, 1, 2, 0⟩, 5)] 2 = 0 := by
  have h : doyValues [(⟨2000, 1, 2, 0⟩, 5)] 2 = [5] := rfl
  obtain ⟨hm, hs, -⟩ := climatology_epoch_doy_stats [(⟨2000, 1, 2, 0⟩, 5)] 2 5 h
  exact ⟨h, hm, hs⟩
